import Mathlib

/-!
Verification of the ThinkPrint event-photo gallery front ends.

The definitions below are a shallow embedding of the JavaScript source files:
  * `src/microsite/src/App.jsx` (microsite: Register, Gallery, App routing)
  * `src/unnamed/part_001`      (earlier microsite variant: Register.handleSubmit)
  * `src/unnamed/part_002`      (slideshow App)
  * `src/dashboard/src/App.jsx` and `src/unnamed/part_000` (dashboard)
JavaScript values that may be `undefined`/`null` are modelled as `Option`;
JavaScript truthiness of strings (`""` is falsy) is modelled explicitly.
-/

/-- Models the JavaScript expression `x || d` where `x` is a string that may be
`undefined`/`null`: an absent or empty string is falsy, so the default wins. -/
def jsOrString (x : Option String) (d : String) : String :=
  match x with
  | none => d
  | some s => if s.isEmpty then d else s

/-- Models JavaScript truthiness of a string that may be `undefined`/`null`. -/
def jsTruthy (x : Option String) : Bool :=
  match x with
  | none => false
  | some s => !s.isEmpty

/-- One item of the `media` array returned by `GET {API_BASE}/gallery/<token>`
or `GET {API_BASE}/slideshow/<eventId>` (fields used by the front ends). -/
structure MediaItem where
  upload_id : String
  url : String
  filename : String
  deriving Repr, DecidableEq

/-- The JSON body of a gallery response together with the HTTP ok flag,
as consumed by `Gallery.fetchMedia`. -/
structure GalleryResponse where
  ok : Bool
  media : Option (List MediaItem)
  error : Option String
  deriving Repr, DecidableEq

/-- Outcome of the `fetch` call in `Gallery.fetchMedia`: either a decoded
response, or the fetch/json threw (network error). -/
inductive FetchOutcome where
  | success (resp : GalleryResponse)
  | failure
  deriving Repr, DecidableEq

/-- The component state of `Gallery` after `fetchMedia` has completed
(`media`, `error`, `loading` hooks of `Gallery` in `src/microsite/src/App.jsx`
lines 220-243 and `src/unnamed/part_001` lines 98-121). -/
structure GalleryState where
  media : List MediaItem
  error : String
  loading : Bool
  deriving Repr, DecidableEq

/-- Model of `Gallery.fetchMedia`: on an ok response set `media` to `data.media || []`
(an absent array yields `[]`); on a non-ok response set `error` to
`data.error || 'Erro ao carregar galeria'`; if the fetch throws set `error`
to `'Erro de conexão'`; `loading` becomes false in every case. -/
def fetchMedia (outcome : FetchOutcome) : GalleryState :=
  match outcome with
  | .success resp =>
    if resp.ok then
      { media := resp.media.getD [], error := "", loading := false }
    else
      { media := [], error := jsOrString resp.error "Erro ao carregar galeria",
        loading := false }
  | .failure =>
    { media := [], error := "Erro de conexão", loading := false }

/-- What the `Gallery` component renders, abstracted to the three branches of
its return: the loading paragraph, the error paragraph, or the media grid
(`src/microsite/src/App.jsx` lines 262-289). -/
inductive GalleryRendered where
  | loadingView
  | errorView (msg : String)
  | grid (items : List MediaItem)
  deriving Repr, DecidableEq

/-- Model of `Gallery`'s render: `if (loading) ...; if (error) ...;` else the grid maps
over `media` unchanged (`media.map(...)`). -/
def renderGallery (st : GalleryState) : GalleryRendered :=
  if st.loading then .loadingView
  else if !st.error.isEmpty then .errorView st.error
  else .grid st.media

/-- A concrete media item, for witnesses. -/
def sampleItem : MediaItem :=
  { upload_id := "u1", url := "/files/a.jpg", filename := "a.jpg" }

/-- A concrete ok gallery response carrying one media item, for witnesses. -/
def sampleOkResp : GalleryResponse :=
  { ok := true, media := some [sampleItem], error := none }

/-- A concrete ok gallery response carrying no media array, for witnesses. -/
def sampleOkEmptyResp : GalleryResponse :=
  { ok := true, media := none, error := none }

/-- A concrete non-ok gallery response whose `error` field is the empty
string, for the C3 counterexample. -/
def emptyErrorResp : GalleryResponse :=
  { ok := false, media := none, error := some "" }

/-- A concrete non-ok gallery response with a nonempty error string, for the
C3 witness. -/
def sampleErrResp : GalleryResponse :=
  { ok := false, media := none, error := some "Token inválido" }

/-- JavaScript `String.prototype.split('/')`: split at every `'/'`, keeping
empty pieces (so `"".split('/') = [""]` and `"a//b".split('/') = ["a","","b"]`). -/
def splitSlash (cs : List Char) : List (List Char) :=
  match cs with
  | [] => [[]]
  | c :: rest =>
    let r := splitSlash rest
    if c = '/' then [] :: r
    else
      match r with
      | [] => [[c]]
      | w :: ws => (c :: w) :: ws

/-- Model of `window.location.pathname.split('/').filter(Boolean)`: the path's
non-empty segments (`getGalleryToken`, `src/microsite/src/App.jsx` line 10). -/
def pathSegments (pathname : String) : List String :=
  ((splitSlash pathname.data).map (fun w => String.mk w)).filter
    (fun p => !p.isEmpty)

/-- Model of `getGalleryToken` (`src/microsite/src/App.jsx` lines 9-15): if
`parts[0] === 'gallery' && parts[1]` return `parts[1]`, else `null`; the
truthiness test on `parts[1]` is the nonemptiness check on the second
segment (an absent `parts[1]` is `undefined`, hence falsy). -/
def getGalleryToken (pathname : String) : Option String :=
  match pathSegments pathname with
  | "gallery" :: second :: _ => if second.isEmpty then none else some second
  | _ => none

/-- Model of `getRegisterEvent` (`src/microsite/src/App.jsx` lines 17-20):
`new URLSearchParams(window.location.search).get('event')`, i.e. the value of
the first `event` parameter, or `null` when absent. -/
def getRegisterEvent (search : List (String × String)) : Option String :=
  (search.find? (fun kv => kv.1 == "event")).map Prod.snd

/-- The three views the microsite root component can render. -/
inductive View where
  | gallery (token : String)
  | register (eventId : String)
  | landing
  deriving Repr, DecidableEq

/-- The microsite root `App` (`src/microsite/src/App.jsx` lines 293-313):
`if (galleryToken) return <Gallery/>; if (registerEvent) return <Register/>;`
else the landing page.  The `if` tests are JavaScript truthiness, so an
empty-string `event` parameter does not select the Register view. -/
def appView (pathname : String) (search : List (String × String)) : View :=
  let galleryToken := getGalleryToken pathname
  let registerEvent := getRegisterEvent search
  if jsTruthy galleryToken then .gallery (galleryToken.getD "")
  else if jsTruthy registerEvent then .register (registerEvent.getD "")
  else .landing

/-- The concrete search string `?event=` (parameter present, empty value),
for the C9 counterexample. -/
def emptyEventSearch : List (String × String) := [("event", "")]

/-- A selected or captured selfie file: its name and MIME type. -/
structure SelfieFile where
  name : String
  mimeType : String
  deriving Repr, DecidableEq

/-- A value appended to a `FormData`: a text field or a file field. -/
inductive FormValue where
  | text (s : String)
  | file (f : SelfieFile)
  deriving Repr, DecidableEq

/-- An HTTP request with a multipart form body, as assembled by the
registration handlers. -/
structure HttpRequest where
  method : String
  url : String
  form : List (String × FormValue)
  deriving Repr, DecidableEq

/-- Model of `Register.handleSubmit` (`src/unnamed/part_001` lines 31-59): without a
selfie it sets the message 'Por favor, selecione uma selfie.' and returns
before any fetch; otherwise it POSTs a multipart body holding exactly
`event_id`, `phone` and `selfie` to `{API_BASE}/register`.  The result is
the request sent, if any, and the validation message, if any. -/
def handleSubmit (apiBase eventId phone : String)
    (selfie : Option SelfieFile) : Option HttpRequest × Option String :=
  match selfie with
  | none => (none, some "Por favor, selecione uma selfie.")
  | some f =>
    (some { method := "POST", url := apiBase ++ "/register",
            form := [("event_id", .text eventId), ("phone", .text phone),
                     ("selfie", .file f)] },
     none)

/-- The steps of the microsite's multi-step signup flow
(`src/microsite/src/App.jsx` line 27). -/
inductive RegStep where
  | phone
  | camera
  | finished
  deriving Repr, DecidableEq

/-- Model of `Register.handlePhoneSubmit` (`src/microsite/src/App.jsx` lines 82-87):
`if (!phone) return;` — an empty phone keeps the current step, otherwise the
flow advances to the camera step. -/
def handlePhoneSubmit (phoneInput : String) (step : RegStep) : RegStep :=
  if phoneInput.isEmpty then step else .camera

/-- An opaque captured canvas blob (the `canvas.toBlob` result). -/
structure CanvasBlob where
  id : Nat
  deriving Repr, DecidableEq

/-- Model of `Register.handleCapture` (`src/microsite/src/App.jsx` lines 97-139): a
null blob sets 'Erro ao capturar selfie' and returns; otherwise the blob is
wrapped in a file named `selfie.jpg` of type `image/jpeg` and POSTed as the
`selfie` field together with `event_id` and `phone`. -/
def handleCapture (apiBase eventId phone : String)
    (blob : Option CanvasBlob) : Option HttpRequest × Option String :=
  match blob with
  | none => (none, some "Erro ao capturar selfie")
  | some _ =>
    (some { method := "POST", url := apiBase ++ "/register",
            form := [("event_id", .text eventId), ("phone", .text phone),
                     ("selfie",
                      .file { name := "selfie.jpg", mimeType := "image/jpeg" })] },
     none)

/-- The slideshow timer tick (`src/unnamed/part_002` line 37):
`setCurrent((prev) => (prev + 1) % media.length)`. -/
def slideshowAdvance (n i : Nat) : Nat := (i + 1) % n

/-- The effective five-second step of the slideshow index: the interval is
installed only when `media.length > 1` (`src/unnamed/part_002` lines 34-41),
otherwise the index never moves. -/
def slideshowStep (n i : Nat) : Nat :=
  if 1 < n then slideshowAdvance n i else i

/-- The dashboard's token-related state: the React `token` state and the
`tp_token` entry of `localStorage` (`src/dashboard/src/App.jsx` line 11). -/
structure DashboardState where
  token : Option String
  storedToken : Option String
  deriving Repr, DecidableEq

/-- The initial dashboard state:
`useState(() => localStorage.getItem('tp_token'))`. -/
def initialDashboard (stored : Option String) : DashboardState :=
  { token := stored, storedToken := stored }

/-- A successful `handleLogin` (`src/dashboard/src/App.jsx` lines 61-63):
`localStorage.setItem('tp_token', data.token); setToken(data.token)` with
`data.token` the value returned by `POST {API_BASE}/login`. -/
def handleLoginSuccess (st : DashboardState) (t : String) : DashboardState :=
  { token := some t, storedToken := some t }

/-- Model of `logout` (`src/dashboard/src/App.jsx` lines 99-106). -/
def handleLogout (st : DashboardState) : DashboardState :=
  { token := none, storedToken := none }

/-- The `Authorization` header value `Bearer ${token}` used by every
protected dashboard request. -/
def bearerHeader (token : String) : String := "Bearer " ++ token

/-- A dashboard request to a protected endpoint. -/
structure AuthRequest where
  method : String
  url : String
  authorization : String
  deriving Repr, DecidableEq

/-- Model of the `fetchEvents` request (`src/dashboard/src/App.jsx` lines 33-49). -/
def fetchEventsReq (apiBase token : String) : AuthRequest :=
  { method := "GET", url := apiBase ++ "/events",
    authorization := bearerHeader token }

/-- Model of `handleCreateEvent`'s request (`src/dashboard/src/App.jsx` lines 74-85). -/
def createEventReq (apiBase token : String) : AuthRequest :=
  { method := "POST", url := apiBase ++ "/events",
    authorization := bearerHeader token }

/-- The event-detail request of `loadAnalytics`
(`src/dashboard/src/App.jsx` lines 114-116). -/
def eventDetailReq (apiBase token eventId : String) : AuthRequest :=
  { method := "GET", url := apiBase ++ "/events/" ++ eventId,
    authorization := bearerHeader token }

/-- The uploads request of `loadAnalytics`
(`src/dashboard/src/App.jsx` lines 118-120). -/
def eventUploadsReq (apiBase token eventId : String) : AuthRequest :=
  { method := "GET", url := apiBase ++ "/events/" ++ eventId ++ "/uploads",
    authorization := bearerHeader token }

/-- Whether a character is a hexadecimal digit (for `parseInt` radix 16). -/
def isHexDigitChar (c : Char) : Bool :=
  c.isDigit || ('a' ≤ c.toLower && c.toLower ≤ 'f')

/-- The numeric value of a decimal or hexadecimal digit character. -/
def digitVal (c : Char) : Nat :=
  if c.isDigit then c.toNat - '0'.toNat else c.toLower.toNat - 'a'.toNat + 10

/-- JavaScript `parseInt(s)` with no radix argument: skip leading
whitespace, read an optional sign, use radix 16 when the remainder starts
with `0x`/`0X` and 10 otherwise, consume the longest digit prefix, and
yield `NaN` (modelled as `none`) when no digits were consumed. -/
def jsParseInt (s : String) : Option Int :=
  let cs := s.data.dropWhile Char.isWhitespace
  let signAndRest : Int × List Char :=
    match cs with
    | '-' :: rest => (-1, rest)
    | '+' :: rest => (1, rest)
    | _ => (1, cs)
  let radixAndRest : Nat × List Char :=
    match signAndRest.2 with
    | '0' :: 'x' :: rest => (16, rest)
    | '0' :: 'X' :: rest => (16, rest)
    | _ => (10, signAndRest.2)
  let digits := radixAndRest.2.takeWhile
    (fun c => if radixAndRest.1 == 16 then isHexDigitChar c else c.isDigit)
  if digits.isEmpty then none
  else
    some (signAndRest.1 *
      (digits.foldl (fun acc c => acc * radixAndRest.1 + digitVal c) 0 : Nat))

/-- The `expiration_days` the dashboard form stores for the typed string `s`
(`src/dashboard/src/App.jsx` line 240 and `src/unnamed/part_000` line 187):
`parseInt(e.target.value) || 30`, where both `NaN` and `0` are falsy. -/
def expirationDaysValue (s : String) : Int :=
  match jsParseInt s with
  | none => 30
  | some n => if n = 0 then 30 else n

/-- The dashboard's new-event form object. -/
structure NewEventForm where
  name : String
  phrase : String
  expiration_days : Int
  logo_url : String
  deriving Repr, DecidableEq

/-- The fresh form object installed after a successful creation
(`src/dashboard/src/App.jsx` line 89 and `src/unnamed/part_000` line 85). -/
def resetNewEvent : NewEventForm :=
  { name := "", phrase := "", expiration_days := 30, logo_url := "" }

/-- A Participant row (spec section 3): identifier, phone number, selfie
reference, gallery access token, owning event. -/
structure Participant where
  pid : Nat
  phone : String
  selfieRef : String
  token : String
  eventId : Nat
  deriving Repr, DecidableEq

/-- Modelled from the spec: the backend participant datastore.  The Flask
backend is not among the source files (only the front ends are), so the
registration flow of spec sections 3-4.1 is modelled from its words. -/
structure BackendState where
  participants : List Participant
  deriving Repr, DecidableEq

/-- Modelled from the spec: a candidate gallery token is fresh when no
existing participant already holds it — the "unique, unguessable" property
the spec ascribes to issued tokens. -/
def freshToken (st : BackendState) (t : String) : Bool :=
  st.participants.all (fun q => q.token != t)

/-- Modelled from the spec: registration "create[s] a Participant row" and
"issue[s] a random opaque gallery token"; the row is added to the store. -/
def registerParticipant (st : BackendState) (p : Participant) : BackendState :=
  { participants := p :: st.participants }

/-- All issued gallery tokens are pairwise distinct. -/
def tokensUnique (st : BackendState) : Prop :=
  (st.participants.map Participant.token).Nodup

instance tokensUniqueDecidable (st : BackendState) :
    Decidable (tokensUnique st) :=
  inferInstanceAs (Decidable (st.participants.map Participant.token).Nodup)

/-- The participants a gallery token resolves to. -/
def resolveToken (st : BackendState) (t : String) : List Participant :=
  st.participants.filter (fun p => p.token == t)

/-- A concrete one-participant backend state, for the C2 witness. -/
def sampleBackend : BackendState :=
  { participants :=
      [{ pid := 1, phone := "5511999990001", selfieRef := "s1.jpg",
         token := "tokA", eventId := 7 }] }

/-- A concrete second participant with a fresh token, for the C2 witness. -/
def sampleNewParticipant : Participant :=
  { pid := 2, phone := "5511999990002", selfieRef := "s2.jpg",
    token := "tokB", eventId := 7 }

/-- A fragment of the JavaScript regular expressions used for the video
check: literal characters (compared case-insensitively, the `i` flag),
concatenation, alternation and the end-of-input anchor `$`. -/
inductive JsRegex where
  | epsilon
  | lit (c : Char)
  | seq (r1 r2 : JsRegex)
  | alt (r1 r2 : JsRegex)
  | eos
  deriving Repr, DecidableEq

/-- Continuation-style regex matcher: `rmatch r cs k` holds when some split
`cs = xs ++ rest` lets `r` match `xs` and `k rest` succeed.  Literals are
compared lowercased, modelling the `i` flag. -/
def rmatch : JsRegex → List Char → (List Char → Bool) → Bool
  | .epsilon, cs, k => k cs
  | .lit c, cs, k =>
    match cs with
    | [] => false
    | d :: rest => (d.toLower == c.toLower) && k rest
  | .seq r1 r2, cs, k => rmatch r1 cs (fun rest => rmatch r2 rest k)
  | .alt r1 r2, cs, k => rmatch r1 cs k || rmatch r2 cs k
  | .eos, cs, k => cs.isEmpty && k cs

/-- Model of `RegExp.prototype.test`: an unanchored search trying a match at every
start position. -/
def rtestAux (r : JsRegex) : List Char → Bool
  | [] => rmatch r [] (fun _ => true)
  | c :: rest => rmatch r (c :: rest) (fun _ => true) || rtestAux r rest

/-- Model of `re.test(s)` on a Lean string. -/
def rtest (r : JsRegex) (s : String) : Bool := rtestAux r s.data

/-- The regex denoting a literal character sequence. -/
def litSeq : List Char → JsRegex
  | [] => .epsilon
  | c :: cs => .seq (.lit c) (litSeq cs)

/-- The dashboard analytics video regex `/\.(mp4|mov|webm)$/i`
(`src/dashboard/src/App.jsx` line 126): a dot, then a group alternating the
three extensions, then `$`. -/
def dashboardVideoRe : JsRegex :=
  .seq (.lit '.')
    (.seq (.alt (litSeq ['m', 'p', '4'])
        (.alt (litSeq ['m', 'o', 'v']) (litSeq ['w', 'e', 'b', 'm'])))
      .eos)

/-- The gallery/slideshow video regex `/\.mp4$|\.mov$|\.webm$/i`
(`src/microsite/src/App.jsx` line 276, `src/unnamed/part_001` line 154,
`src/unnamed/part_002` line 54): three `$`-anchored alternatives. -/
def galleryVideoRe : JsRegex :=
  .alt (.seq (.lit '.') (.seq (litSeq ['m', 'p', '4']) .eos))
    (.alt (.seq (.lit '.') (.seq (litSeq ['m', 'o', 'v']) .eos))
      (.seq (.lit '.') (.seq (litSeq ['w', 'e', 'b', 'm']) .eos)))

/-- Case-insensitive equality of character lists. -/
def eqLowerList : List Char → List Char → Bool
  | [], [] => true
  | c :: cs, w :: ws => (c.toLower == w.toLower) && eqLowerList cs ws
  | _, _ => false

/-- Test that `cs` ends (case-insensitively) with `w`: some suffix of `cs` equals `w`
up to case. -/
def endsWithLower (cs w : List Char) : Bool :=
  eqLowerList cs w ||
    (match cs with
     | [] => false
     | _ :: rest => endsWithLower rest w)

/-- An absent value is falsy. -/
theorem jsTruthy_none : jsTruthy none = false := rfl

/-- C1 -- For every successful gallery response the rendered media list is
exactly the response's `media` array, and `[]` when the response carries no
`media` field; nothing is added or dropped before rendering. -/
theorem gallery_media_exact (resp : GalleryResponse) (hok : resp.ok = true) :
    (fetchMedia (.success resp)).media = resp.media.getD []
    ∧ (resp.media = none → (fetchMedia (.success resp)).media = [])
    ∧ renderGallery (fetchMedia (.success resp)) = .grid (resp.media.getD []) := by
  constructor
  · simp [fetchMedia, hok]
  constructor
  · intro hnone
    simp [fetchMedia, hok, hnone]
  · simp [fetchMedia, renderGallery, hok]
    decide

/-- Witness for C1 at a concrete ok response carrying one media item, and at
one carrying no media array. -/
theorem gallery_media_exact_witness :
    sampleOkResp.ok = true
    ∧ (fetchMedia (.success sampleOkResp)).media = [sampleItem]
    ∧ (fetchMedia (.success sampleOkEmptyResp)).media = [] := by
  refine ⟨rfl, ?_, ?_⟩
  · exact (gallery_media_exact sampleOkResp rfl).1
  · exact (gallery_media_exact sampleOkEmptyResp rfl).2.1 rfl

/-- A nonempty default never yields an empty `x || d`. -/
theorem jsOrString_not_empty (x : Option String) (d : String)
    (hd : d.isEmpty = false) : (jsOrString x d).isEmpty = false := by
  cases x with
  | none => simpa [jsOrString]
  | some s =>
    by_cases hs : s.isEmpty <;> simp [jsOrString, hs, hd]

/-- When `x` holds a nonempty string, `x || d` is that string verbatim. -/
theorem jsOrString_of_nonempty (s d : String) (hs : s.isEmpty = false) :
    jsOrString (some s) d = s := by
  simp [jsOrString, hs]

/-- C3 counterexample -- the claim says the error string is displayed
verbatim whenever it is present; but a non-ok response carrying the empty
string as its `error` displays the fixed fallback 'Erro ao carregar galeria'
instead ( `data.error || 'Erro ao carregar galeria'` treats `""` as falsy). -/
theorem gallery_error_verbatim_counterexample :
    emptyErrorResp.ok = false
    ∧ emptyErrorResp.error = some ""
    ∧ renderGallery (fetchMedia (.success emptyErrorResp))
        = .errorView "Erro ao carregar galeria"
    ∧ renderGallery (fetchMedia (.success emptyErrorResp)) ≠ .errorView "" := by
  refine ⟨rfl, rfl, by decide, by decide⟩

/-- C3 (amended) -- for every non-ok gallery response the view displays the
response's `error` string verbatim when it is present and nonempty, and the
fixed message 'Erro ao carregar galeria' when it is absent or empty; when the
fetch itself throws it displays 'Erro de conexão'; in all these cases no
media grid is rendered. -/
theorem gallery_error_display (resp : GalleryResponse) (hok : resp.ok = false) :
    (∀ s, resp.error = some s → s.isEmpty = false →
        renderGallery (fetchMedia (.success resp)) = .errorView s)
    ∧ (resp.error = none →
        renderGallery (fetchMedia (.success resp))
          = .errorView "Erro ao carregar galeria")
    ∧ (resp.error = some "" →
        renderGallery (fetchMedia (.success resp))
          = .errorView "Erro ao carregar galeria")
    ∧ renderGallery (fetchMedia .failure) = .errorView "Erro de conexão"
    ∧ (∀ items, renderGallery (fetchMedia (.success resp)) ≠ .grid items)
    ∧ (∀ items, renderGallery (fetchMedia .failure) ≠ .grid items) := by
  have herr : ((fetchMedia (.success resp)).error).isEmpty = false := by
    simp only [fetchMedia, hok]
    exact jsOrString_not_empty resp.error _ rfl
  refine ⟨?_, ?_, ?_, ?_, ?_, ?_⟩
  · intro s hs hne
    simp [fetchMedia, renderGallery, hok, hs, jsOrString_of_nonempty s _ hne, hne]
  · intro hnone
    simp [fetchMedia, renderGallery, hok, hnone, jsOrString]
    decide
  · intro hempty
    simp only [fetchMedia, hok, hempty, Bool.false_eq_true, if_false]
    decide
  · decide
  · intro items
    simp [renderGallery, fetchMedia, hok] at herr ⊢
    simp [herr]
  · intro items
    have hfail : renderGallery (fetchMedia .failure)
        = .errorView "Erro de conexão" := by decide
    simp [hfail]

/-- Witness for C3 (amended) at a concrete non-ok response: its nonempty
error string is displayed verbatim. -/
theorem gallery_error_display_witness :
    sampleErrResp.ok = false
    ∧ sampleErrResp.error = some "Token inválido"
    ∧ "Token inválido".isEmpty = false
    ∧ renderGallery (fetchMedia (.success sampleErrResp))
        = .errorView "Token inválido" := by
  refine ⟨rfl, rfl, rfl, ?_⟩
  exact (gallery_error_display sampleErrResp rfl).1 "Token inválido" rfl rfl

/-- Every path segment produced by `filter(Boolean)` is non-empty. -/
theorem pathSegments_not_empty (pathname : String) (p : String)
    (hp : p ∈ pathSegments pathname) : p.isEmpty = false := by
  have h := List.of_mem_filter hp
  simpa using h

/-- Lemma: `getGalleryToken` returns `some t` exactly when the first non-empty
segment is `"gallery"` and `t` is the (necessarily non-empty) second one. -/
theorem getGalleryToken_eq_some (pathname : String) (t : String) :
    getGalleryToken pathname = some t ↔
      ((pathSegments pathname)[0]? = some "gallery"
        ∧ (pathSegments pathname)[1]? = some t) := by
  unfold getGalleryToken
  cases hps : pathSegments pathname with
  | nil => simp
  | cons a rest =>
    cases rest with
    | nil =>
      by_cases ha : a = "gallery" <;> simp [ha]
    | cons b rest2 =>
      by_cases ha : a = "gallery"
      · subst ha
        have hb : b.isEmpty = false :=
          pathSegments_not_empty pathname b (by rw [hps]; simp)
        simp [hb, eq_comm]
      · simp [ha, Ne.symm ha]

/-- A gallery token extracted from the URL is never the empty string. -/
theorem getGalleryToken_nonempty (pathname : String) (t : String)
    (h : getGalleryToken pathname = some t) : t.isEmpty = false := by
  have h2 := (getGalleryToken_eq_some pathname t).mp h
  exact pathSegments_not_empty pathname t (List.getElem?_mem h2.2)

/-- C9 counterexample -- the claim says the Register view is rendered
whenever the `event` query parameter is present (and no gallery path is);
but with `?event=` the parameter is present with an empty value, which is
falsy in JavaScript, so the landing page is rendered instead. -/
theorem app_register_counterexample :
    getRegisterEvent emptyEventSearch = some ""
    ∧ appView "/" emptyEventSearch = .landing
    ∧ appView "/" emptyEventSearch ≠ .register "" := by
  refine ⟨rfl, by decide, by decide⟩

/-- C9 (amended) -- the microsite renders the Gallery view iff the path's
first non-empty segment is `gallery` and a non-empty second segment (the
token) exists; otherwise it renders the Register view iff the `event` query
parameter is present with a non-empty value; otherwise the landing page.
A gallery path takes precedence over an `event` parameter. -/
theorem app_routing (pathname : String) (search : List (String × String)) :
    (∀ t, appView pathname search = .gallery t ↔
      ((pathSegments pathname)[0]? = some "gallery"
        ∧ (pathSegments pathname)[1]? = some t))
    ∧ (∀ e, appView pathname search = .register e ↔
      (getGalleryToken pathname = none
        ∧ getRegisterEvent search = some e ∧ e.isEmpty = false))
    ∧ (appView pathname search = .landing ↔
      (getGalleryToken pathname = none
        ∧ jsTruthy (getRegisterEvent search) = false))
    ∧ (∀ t, getGalleryToken pathname = some t →
        appView pathname search = .gallery t) := by
  have hgal : ∀ t, getGalleryToken pathname = some t →
      appView pathname search = .gallery t := by
    intro t ht
    have hne := getGalleryToken_nonempty pathname t ht
    simp [appView, ht, jsTruthy, hne]
  refine ⟨?_, ?_, ?_, hgal⟩
  · intro t
    constructor
    · intro hv
      rw [← getGalleryToken_eq_some]
      cases hg : getGalleryToken pathname with
      | none => simp [appView, hg, jsTruthy] at hv; split at hv <;> simp_all
      | some s =>
        have := hgal s hg
        rw [this] at hv
        cases hv
        rfl
    · intro h
      exact hgal t ((getGalleryToken_eq_some pathname t).mpr h)
  · intro e
    constructor
    · intro hv
      cases hg : getGalleryToken pathname with
      | some s => have := hgal s hg; rw [this] at hv; cases hv
      | none =>
        refine ⟨rfl, ?_⟩
        cases hr : getRegisterEvent search with
        | none => simp [appView, hg, hr, jsTruthy] at hv
        | some r =>
          by_cases hre : r.isEmpty
          · simp [appView, hg, hr, jsTruthy, hre] at hv
          · simp [appView, hg, hr, jsTruthy, hre] at hv
            subst hv
            exact ⟨rfl, by simpa using hre⟩
    · rintro ⟨hg, hr, hre⟩
      simp [appView, hg, hr, jsTruthy, hre]
  · constructor
    · intro hv
      cases hg : getGalleryToken pathname with
      | some s => have := hgal s hg; rw [this] at hv; cases hv
      | none =>
        refine ⟨rfl, ?_⟩
        by_cases hr : jsTruthy (getRegisterEvent search)
        · simp [appView, hg, hr, jsTruthy_none] at hv
        · simpa using hr
    · rintro ⟨hg, hr⟩
      simp [appView, hg, hr, jsTruthy_none]

/-- Witness for C9 at a concrete URL carrying both a gallery path and an
`event` parameter: the Gallery view wins. -/
theorem app_routing_witness :
    getGalleryToken "/gallery/tok123" = some "tok123"
    ∧ appView "/gallery/tok123" [("event", "e1")] = .gallery "tok123" := by
  refine ⟨by decide, ?_⟩
  exact (app_routing "/gallery/tok123" [("event", "e1")]).2.2.2 "tok123" (by decide)

/-- C4 -- a registration attempt with a missing required input sends no
request to `POST {API_BASE}/register`: submitting without a selfie produces
no request and the plain message 'Por favor, selecione uma selfie.', and an
empty phone leaves the multi-step flow on the phone step. -/
theorem register_missing_inputs (apiBase eventId phone : String) :
    (handleSubmit apiBase eventId phone none).1 = none
    ∧ (handleSubmit apiBase eventId phone none).2
        = some "Por favor, selecione uma selfie."
    ∧ handlePhoneSubmit "" .phone = .phone := by
  exact ⟨rfl, rfl, rfl⟩

/-- C5 -- every registration request the microsite sends is a POST to
`{API_BASE}/register` whose multipart body holds exactly the three fields
`event_id`, `phone` and `selfie`, with `event_id` the page's event
identifier and `phone` the form input; both the file-input variant
(`handleSubmit`) and the camera variant (`handleCapture`) comply. -/
theorem register_request_fields (apiBase eventId phone : String)
    (f : SelfieFile) (b : CanvasBlob) :
    ((handleSubmit apiBase eventId phone (some f)).1.map
        (fun r => (r.method, r.url, r.form.map Prod.fst)))
      = some ("POST", apiBase ++ "/register", ["event_id", "phone", "selfie"])
    ∧ ((handleCapture apiBase eventId phone (some b)).1.map
        (fun r => (r.method, r.url, r.form.map Prod.fst)))
      = some ("POST", apiBase ++ "/register", ["event_id", "phone", "selfie"])
    ∧ ((handleSubmit apiBase eventId phone (some f)).1.map
        (fun r => (r.form.lookup "event_id", r.form.lookup "phone",
                   r.form.lookup "selfie")))
      = some (some (.text eventId), some (.text phone), some (.file f))
    ∧ ((handleCapture apiBase eventId phone (some b)).1.map
        (fun r => (r.form.lookup "event_id", r.form.lookup "phone")))
      = some (some (.text eventId), some (.text phone)) := by
  exact ⟨rfl, rfl, rfl, rfl⟩

/-- Iterating the slideshow step from index 0 lands on `k % n`. -/
theorem slideshowStep_iterate (n : Nat) (hn : 1 ≤ n) (k : Nat) :
    (slideshowStep n)^[k] 0 = k % n := by
  induction k with
  | zero => simp
  | succ k ih =>
    rw [Function.iterate_succ_apply', ih]
    by_cases h : 1 < n
    · simp only [slideshowStep, h, if_true, slideshowAdvance]
      conv_rhs => rw [Nat.add_mod]
      rw [Nat.mod_eq_of_lt h]
    · have hn1 : n = 1 := by omega
      subst hn1
      simp [slideshowStep, Nat.mod_one]

/-- C6 -- for a fetched media list of length `n ≥ 1`, the slideshow's
five-second step maps index `i` to `(i + 1) % n` (for `n = 1` no interval
is installed, and the stationary index 0 equals `(0 + 1) % 1`); the index
always stays in `[0, n)`, returns to 0 after `n` steps, and every item of
the list is eventually displayed. -/
theorem slideshow_cycle (n : Nat) (hn : 1 ≤ n) :
    (∀ i, i < n → slideshowStep n i = (i + 1) % n)
    ∧ (∀ k, (slideshowStep n)^[k] 0 < n)
    ∧ (slideshowStep n)^[n] 0 = 0
    ∧ (∀ j, j < n → (slideshowStep n)^[j] 0 = j) := by
  refine ⟨?_, ?_, ?_, ?_⟩
  · intro i hi
    by_cases h : 1 < n
    · simp [slideshowStep, slideshowAdvance, h]
    · have hn1 : n = 1 := by omega
      subst hn1
      have hi0 : i = 0 := by omega
      subst hi0
      decide
  · intro k
    rw [slideshowStep_iterate n hn k]
    exact Nat.mod_lt _ hn
  · rw [slideshowStep_iterate n hn n]
    exact Nat.mod_self n
  · intro j hj
    rw [slideshowStep_iterate n hn j]
    exact Nat.mod_eq_of_lt hj

/-- Witness for C6 at `n = 3`: the step advances 1 to 2 and three steps
from 0 return to 0. -/
theorem slideshow_cycle_witness :
    1 ≤ 3 ∧ slideshowStep 3 1 = (1 + 1) % 3
    ∧ (slideshowStep 3)^[3] 0 = 0 := by
  refine ⟨by decide, ?_, (slideshow_cycle 3 (by decide)).2.2.1⟩
  exact (slideshow_cycle 3 (by decide)).1 1 (by decide)

/-- C7 -- every protected dashboard request (GET /events, POST /events,
GET /events/:id, GET /events/:id/uploads) carries the header
`Authorization: Bearer <token>`; the login handler stores the token returned
by `POST {API_BASE}/login` both in the React state and under the
`localStorage` key `tp_token`, and the state always mirrors the stored
value (initially it is read from it). -/
theorem dashboard_bearer_auth (apiBase t eventId : String)
    (stored : Option String) (st : DashboardState) :
    (fetchEventsReq apiBase t).authorization = "Bearer " ++ t
    ∧ (fetchEventsReq apiBase t).method = "GET"
    ∧ (fetchEventsReq apiBase t).url = apiBase ++ "/events"
    ∧ (createEventReq apiBase t).authorization = "Bearer " ++ t
    ∧ (createEventReq apiBase t).method = "POST"
    ∧ (createEventReq apiBase t).url = apiBase ++ "/events"
    ∧ (eventDetailReq apiBase t eventId).authorization = "Bearer " ++ t
    ∧ (eventDetailReq apiBase t eventId).url
        = apiBase ++ "/events/" ++ eventId
    ∧ (eventUploadsReq apiBase t eventId).authorization = "Bearer " ++ t
    ∧ (eventUploadsReq apiBase t eventId).url
        = apiBase ++ "/events/" ++ eventId ++ "/uploads"
    ∧ (handleLoginSuccess st t).token = some t
    ∧ (handleLoginSuccess st t).storedToken = some t
    ∧ (initialDashboard stored).token = (initialDashboard stored).storedToken
    ∧ (handleLoginSuccess st t).token = (handleLoginSuccess st t).storedToken
    ∧ (handleLogout st).token = (handleLogout st).storedToken := by
  exact ⟨rfl, rfl, rfl, rfl, rfl, rfl, rfl, rfl, rfl, rfl, rfl, rfl, rfl,
    rfl, rfl⟩

/-- C10 -- the dashboard form stores `parseInt(s)` as `expiration_days`
when that value is a nonzero number and 30 otherwise; entering '0' or a
non-numeric string yields 30; the stored value is never 0 (and never NaN,
being a total integer); and the form resets `expiration_days` to 30 after
a successful creation. -/
theorem expiration_days_rules (s : String) (n : Int) :
    (jsParseInt s = some n → n ≠ 0 → expirationDaysValue s = n)
    ∧ (jsParseInt s = none → expirationDaysValue s = 30)
    ∧ (jsParseInt s = some 0 → expirationDaysValue s = 30)
    ∧ expirationDaysValue s ≠ 0
    ∧ expirationDaysValue "0" = 30
    ∧ expirationDaysValue "abc" = 30
    ∧ resetNewEvent.expiration_days = 30 := by
  refine ⟨?_, ?_, ?_, ?_, by decide, by decide, rfl⟩
  · intro h hn
    simp [expirationDaysValue, h, hn]
  · intro h
    simp [expirationDaysValue, h]
  · intro h
    simp [expirationDaysValue, h]
  · cases h : jsParseInt s with
    | none => simp [expirationDaysValue, h]
    | some m =>
      by_cases hm : m = 0 <;> simp [expirationDaysValue, h, hm]

/-- Witness for C10 at a concrete numeric string: `parseInt "45"` is the
nonzero `45` and is stored as typed. -/
theorem expiration_days_rules_witness :
    jsParseInt "45" = some 45 ∧ (45 : Int) ≠ 0
    ∧ expirationDaysValue "45" = 45 := by
  refine ⟨by decide, by decide, ?_⟩
  exact (expiration_days_rules "45" 45).1 (by decide) (by decide)

/-- With pairwise-distinct tokens, filtering by any token keeps at most one
participant. -/
theorem filter_token_length (l : List Participant) (t : String)
    (h : (l.map Participant.token).Nodup) :
    (l.filter (fun p => p.token == t)).length ≤ 1 := by
  induction l with
  | nil => simp
  | cons p ps ih =>
    simp only [List.map_cons, List.nodup_cons] at h
    by_cases hp : p.token = t
    · have hnone : ps.filter (fun q => q.token == t) = [] := by
        rw [List.filter_eq_nil_iff]
        intro q hq hqt
        have hqt2 : q.token = t := by simpa using hqt
        exact h.1 (List.mem_map.mpr ⟨q, hq, by rw [hqt2, hp]⟩)
      simp [List.filter_cons, hp, hnone]
    · have hp2 : (p.token == t) = false := by simpa using hp
      simp only [List.filter_cons, hp2, if_false, Bool.false_eq_true]
      exact ih h.2

/-- C2 -- tokens are pairwise distinct after every registration: starting
from a state whose tokens are distinct, registering a participant with a
fresh token keeps all tokens distinct, every pair of distinct participants
carries different tokens, and any gallery token resolves to at most one
participant.  (The backend issuing code is absent from the sources; the
issuance is modelled from the spec.) -/
theorem gallery_token_unique (st : BackendState) (p : Participant)
    (hinv : tokensUnique st) (hfresh : freshToken st p.token = true) :
    tokensUnique (registerParticipant st p)
    ∧ (registerParticipant st p).participants.Pairwise
        (fun a b => a.token ≠ b.token)
    ∧ (∀ t, (resolveToken (registerParticipant st p) t).length ≤ 1) := by
  have hnotmem : p.token ∉ st.participants.map Participant.token := by
    intro hmem
    obtain ⟨q, hq, hqt⟩ := List.mem_map.mp hmem
    have hq2 := (List.all_eq_true.mp hfresh) q hq
    simp only [bne_iff_ne, ne_eq] at hq2
    exact hq2 hqt
  have hnodup : tokensUnique (registerParticipant st p) := by
    unfold tokensUnique registerParticipant
    simp only [List.map_cons, List.nodup_cons]
    exact ⟨hnotmem, hinv⟩
  refine ⟨hnodup, ?_, ?_⟩
  · have h2 : ((registerParticipant st p).participants.map
        Participant.token).Nodup := hnodup
    exact List.pairwise_map.mp h2
  · intro t
    exact filter_token_length _ t hnodup

/-- Witness for C2 at a concrete state: registering a second participant
with a fresh token keeps all tokens distinct. -/
theorem gallery_token_unique_witness :
    tokensUnique sampleBackend
    ∧ freshToken sampleBackend sampleNewParticipant.token = true
    ∧ tokensUnique (registerParticipant sampleBackend sampleNewParticipant)
    ∧ (resolveToken (registerParticipant sampleBackend sampleNewParticipant)
        "tokB").length ≤ 1 := by
  refine ⟨by decide, by decide, ?_, ?_⟩
  · exact (gallery_token_unique sampleBackend sampleNewParticipant
      (by decide) (by decide)).1
  · exact (gallery_token_unique sampleBackend sampleNewParticipant
      (by decide) (by decide)).2.2 "tokB"

/-- The head-position match of the two video regexes agree: conjunction
distributes over the grouped alternation. -/
theorem rmatch_video_eq (cs : List Char) (k : List Char → Bool) :
    rmatch dashboardVideoRe cs k = rmatch galleryVideoRe cs k := by
  cases cs with
  | nil => rfl
  | cons d rest =>
    simp only [dashboardVideoRe, galleryVideoRe, litSeq, rmatch]
    rw [Bool.and_or_distrib_left, Bool.and_or_distrib_left]

/-- Searching for an alternation searches for each alternative. -/
theorem rtestAux_alt (r1 r2 : JsRegex) (cs : List Char) :
    rtestAux (.alt r1 r2) cs = (rtestAux r1 cs || rtestAux r2 cs) := by
  induction cs with
  | nil => rfl
  | cons c rest ih =>
    simp only [rtestAux, rmatch, ih]
    cases rmatch r1 (c :: rest) (fun _ => true) <;>
      cases rmatch r2 (c :: rest) (fun _ => true) <;>
      cases rtestAux r1 rest <;> simp

/-- A `$`-anchored literal sequence matches at the current position exactly
when the whole remaining input equals it up to case. -/
theorem rmatch_litSeq_eos_top (w cs : List Char) :
    rmatch (litSeq w) cs (fun r => r.isEmpty) = eqLowerList cs w := by
  induction w generalizing cs with
  | nil =>
    cases cs <;> simp [litSeq, rmatch, eqLowerList]
  | cons a w ih =>
    cases cs with
    | nil => simp [litSeq, rmatch, eqLowerList]
    | cons d rest =>
      simp only [litSeq, rmatch, eqLowerList, ih]

/-- Searching for a `$`-anchored dotted literal is the case-insensitive
ends-with test. -/
theorem rtestAux_dotAnchor (w : List Char) (cs : List Char) :
    rtestAux (.seq (.lit '.') (.seq (litSeq w) .eos)) cs
      = endsWithLower cs ('.' :: w) := by
  induction cs with
  | nil =>
    simp [rtestAux, rmatch, endsWithLower, eqLowerList]
  | cons d rest ih =>
    simp only [rtestAux, endsWithLower, eqLowerList]
    rw [ih]
    congr 1
    simp only [rmatch, Bool.and_true]
    rw [rmatch_litSeq_eos_top]

/-- C8 -- the dashboard video predicate `/\.(mp4|mov|webm)$/i` and the
gallery/slideshow predicate `/\.mp4$|\.mov$|\.webm$/i` accept exactly the
same filenames, namely those ending in `.mp4`, `.mov` or `.webm`
case-insensitively; so an upload is counted as a video by the dashboard
exactly when the gallery and slideshow render it as a video, and every
other upload is counted and rendered as a photo on both sides. -/
theorem video_predicates_agree (s : String) :
    rtest dashboardVideoRe s = rtest galleryVideoRe s
    ∧ rtest galleryVideoRe s
        = (endsWithLower s.data ['.', 'm', 'p', '4']
           || (endsWithLower s.data ['.', 'm', 'o', 'v']
               || endsWithLower s.data ['.', 'w', 'e', 'b', 'm']))
    ∧ ((rtest dashboardVideoRe s = false) ↔ (rtest galleryVideoRe s = false)) := by
  have hchar : rtest galleryVideoRe s
      = (endsWithLower s.data ['.', 'm', 'p', '4']
         || (endsWithLower s.data ['.', 'm', 'o', 'v']
             || endsWithLower s.data ['.', 'w', 'e', 'b', 'm'])) := by
    unfold rtest galleryVideoRe
    rw [rtestAux_alt, rtestAux_alt, rtestAux_dotAnchor, rtestAux_dotAnchor,
      rtestAux_dotAnchor]
  have heq : rtest dashboardVideoRe s = rtest galleryVideoRe s := by
    unfold rtest
    induction s.data with
    | nil =>
      simp only [rtestAux, rmatch_video_eq]
    | cons c rest ih =>
      simp only [rtestAux, rmatch_video_eq, ih]
  exact ⟨heq, hchar, by rw [heq]⟩
